import Mathlib

/-!
Shallow embedding of the identity-correlation core of the `osint-eye`
repository (`src/analysis/cross_platform_analyzer.py`,
`src/analysis/cross_platform_correlator.py`, `src/search/advanced_discovery.py`),
together with proofs settling the frozen claims about it.

Python strings are modelled as lists of Unicode codepoints (`List Nat`);
character classes (`\d`, `\w`, `\s`, `str.lower`) are modelled at ASCII
precision, which covers every concrete input appearing in the claims.
Real-valued scores are modelled as rationals (`ℚ`); post timestamps are
modelled as rational hour counts.  A call that the source can only complete by
raising an exception is embedded as `Except`.
-/

/-- Encode a Lean string literal as its list of codepoints, the representation
used throughout for Python `str` values. -/
def encode (s : String) : List Nat := s.toList.map Char.toNat

/-- Python `\d` (ASCII digits `0`-`9`). -/
def isDigitCp (c : Nat) : Bool := 48 ≤ c && c ≤ 57

/-- The separator class `[._-]` removed by `_normalize_username`. -/
def isSepCp (c : Nat) : Bool := c == 46 || c == 95 || c == 45

/-- Python `\s` / `str.split()` whitespace: space, `\t`, `\n`, `\r`, `\x0b`, `\x0c`. -/
def isSpaceCp (c : Nat) : Bool :=
  c == 32 || c == 9 || c == 10 || c == 13 || c == 11 || c == 12

/-- Python `\w` (ASCII): letters, digits and underscore. -/
def isWordCp (c : Nat) : Bool :=
  (48 ≤ c && c ≤ 57) || (65 ≤ c && c ≤ 90) || (97 ≤ c && c ≤ 122) || c == 95

/-- `str.lower()` on one codepoint (ASCII `A`-`Z` mapped to `a`-`z`). -/
def pyLower (c : Nat) : Nat := if 65 ≤ c ∧ c ≤ 90 then c + 32 else c

/-- `str.lower()` on a whole string. -/
def lowerCp (l : List Nat) : List Nat := l.map pyLower

/-- Remove the maximal run of digits at the very end of the string. -/
def dropTrailingDigits (l : List Nat) : List Nat :=
  List.rdropWhile isDigitCp l

/-- `re.sub(r'\d+$', '', s)`.  Python's `$` matches at the end of the string
and also just before a newline that is the last character, so a digit run
immediately preceding a single final `'\n'` (codepoint 10) is removed as
well. -/
def stripTrailingDigits (l : List Nat) : List Nat :=
  if l.getLast? = some 10 then dropTrailingDigits l.dropLast ++ [10]
  else dropTrailingDigits l

/-- `CrossPlatformAnalyzer._normalize_username`: lower-case, drop `[._-]`
separators, strip the trailing digit run. -/
def normalizeUsername (l : List Nat) : List Nat :=
  stripTrailingDigits ((lowerCp l).filter (fun c => !isSepCp c))

/-- `str.split()`: the maximal whitespace-free runs of the string, in order,
empty runs discarded. -/
def pySplit (l : List Nat) : List (List Nat) :=
  (l.splitOnP isSpaceCp).filter (fun w => !w.isEmpty)

/-- `CrossPlatformAnalyzer._normalize_name`: lower-case, drop every character
outside `[\w\s]`, then `' '.join(s.split())` (collapse whitespace runs to
single spaces, trimming the ends). -/
def normalizeName (l : List Nat) : List Nat :=
  List.intercalate [32]
    (pySplit ((lowerCp l).filter (fun c => isWordCp c || isSpaceCp c)))

/-!
### Signal extractors (`cross_platform_analyzer.py`)

Behavioral features are the aggregates extracted by
`_extract_behavioral_features` that `_calculate_behavioral_correlation` reads;
a profile with no posts yields the empty dict, modelled as `none`.  Style
features are the nine ratios of `_extract_writing_style_features`; text-less
profiles again yield `none`.  Post timestamps are rationals measured in hours.
-/

structure BehaviorFeatures where
  most_active_hour : ℚ
  most_active_day : ℚ
  avg_content_length : ℚ
deriving DecidableEq

/-- One summand of `_calculate_style_similarity` / the content-length part of
`_calculate_behavioral_correlation`: `1 - |v1 - v2| / max(v1, v2, 1)`. -/
def simTerm (a b : ℚ) : ℚ := 1 - |a - b| / max a (max b 1)

/-- `CrossPlatformAnalyzer._calculate_behavioral_correlation`.  With both
feature dicts nonempty all three sub-scores are present, and `np.mean` of the
three is their sum divided by 3.  Only the day sub-score is floored at 0. -/
def behavioralCorrelation : Option BehaviorFeatures → Option BehaviorFeatures → ℚ
  | some b1, some b2 =>
      ((1 - |b1.most_active_hour - b2.most_active_hour| / 12) +
        max 0 (1 - |b1.most_active_day - b2.most_active_day| / (7 / 2)) +
        simTerm b1.avg_content_length b2.avg_content_length) / 3
  | _, _ => 0

structure StyleFeatures where
  avg_sentence_length : ℚ
  avg_word_length : ℚ
  exclamation_ratio : ℚ
  question_ratio : ℚ
  comma_ratio : ℚ
  uppercase_ratio : ℚ
  emoji_ratio : ℚ
  hashtag_ratio : ℚ
  mention_ratio : ℚ
deriving DecidableEq

/-- `CrossPlatformAnalyzer._calculate_style_similarity`.  Both feature dicts
carry the same nine keys, so the common-key set is all nine; the mean does not
depend on Python set-iteration order. -/
def styleSimilarity : Option StyleFeatures → Option StyleFeatures → ℚ
  | some f1, some f2 =>
      (simTerm f1.avg_sentence_length f2.avg_sentence_length +
        simTerm f1.avg_word_length f2.avg_word_length +
        simTerm f1.exclamation_ratio f2.exclamation_ratio +
        simTerm f1.question_ratio f2.question_ratio +
        simTerm f1.comma_ratio f2.comma_ratio +
        simTerm f1.uppercase_ratio f2.uppercase_ratio +
        simTerm f1.emoji_ratio f2.emoji_ratio +
        simTerm f1.hashtag_ratio f2.hashtag_ratio +
        simTerm f1.mention_ratio f2.mention_ratio) / 9
  | _, _ => 0

/-- `CrossPlatformAnalyzer._calculate_timing_correlation`.  The guard
`if not times1 or not times2` (list truthiness) returns `0.0`; after it, line
501 evaluates `timedelta(hours=2)`, but the module imports only `datetime`
from the `datetime` module (line 4), so every call with two nonempty lists
raises `NameError` before reaching the counting loop — the loop and its
`return` are unreachable.  The fallible call is embedded as `Except`, with the
interpreter error message (sans quotes) as the error value. -/
def timingCorrelation (times1 times2 : List ℚ) : Except String ℚ :=
  if times1.isEmpty || times2.isEmpty then .ok 0
  else .error "NameError: timedelta is not defined"

/-- The timestamp-collection loop of `analyze_timing_correlation`: each post
contributes its parsed timestamp; a missing or unparsable date (`none`) is
skipped by the `try/except: continue`. -/
def extractPostTimes (posts : List (Option ℚ)) : List ℚ := posts.filterMap id

/-!
### difflib `SequenceMatcher` (used by
`CrossPlatformCorrelator._calculate_username_similarity`)

`SequenceMatcher(None, a, b)` with short strings has no junk elements (no
junk predicate, and autojunk only applies for `len(b) ≥ 200`), so
`find_longest_match` is exactly its dynamic-programming core — the two
junk-extension loops never change the result — and `ratio()` is
`2 * (total size of matching blocks) / (len(a) + len(b))`, or `1.0` when both
strings are empty. -/

/-- `b2j`: the ascending list of positions of `x` in `b`. -/
def b2jIndices (b : List Nat) (x : Nat) : List Nat :=
  (List.range b.length).filter fun j => decide (b.get? j = some x)

/-- `j2len.get(j, 0)` on the association-list model of the dict. -/
def lookupJ (m : List (Nat × Nat)) (j : Nat) : Nat :=
  match m.find? (fun p => p.1 == j) with
  | some p => p.2
  | none => 0

/-- `SequenceMatcher.find_longest_match(alo, ahi, blo, bhi)` for junk-free
inputs: iterate `i` over `[alo, ahi)` and, for each `j` position of `a[i]` in
`b` within `[blo, bhi)` in ascending order, extend the diagonal run ending at
`(i-1, j-1)`; a strictly larger run becomes the new best.  `j2len.get(j-1, 0)`
reads the previous row; Python's `j-1` at `j = 0` is `-1`, absent from the
dict, hence the explicit guard. -/
def findLongestMatch (a b : List Nat) (alo ahi blo bhi : Nat) :
    Nat × Nat × Nat :=
  let step : List (Nat × Nat) × (Nat × Nat × Nat) → Nat →
      List (Nat × Nat) × (Nat × Nat × Nat) :=
    fun st i =>
      let j2len := st.1
      let js := (b2jIndices b (a.getD i 0)).filter fun j =>
        decide (blo ≤ j) && decide (j < bhi)
      js.foldl
        (fun st2 j =>
          let k := (if j = 0 then 0 else lookupJ j2len (j - 1)) + 1
          ((j, k) :: st2.1,
            if st2.2.2.2 < k then (i + 1 - k, j + 1 - k, k) else st2.2))
        ([], st.2)
  ((List.range' alo (ahi - alo)).foldl step ([], (alo, blo, 0))).2

/-- The `get_matching_blocks` work queue, summed: pop a region, find its
longest match, recurse into the flanking regions (the later-pushed right
region is popped first).  Fuel: every region with a nonzero match splits into
regions of strictly smaller total extent, so `2 * (|a| + |b|) + 3` pops always
suffice. -/
def matchTotalGo (a b : List Nat) : Nat → List (Nat × Nat × Nat × Nat) → Nat
  | 0, _ => 0
  | _ + 1, [] => 0
  | fuel + 1, (alo, ahi, blo, bhi) :: rest =>
    let r := findLongestMatch a b alo ahi blo bhi
    let i := r.1
    let j := r.2.1
    let k := r.2.2
    if k = 0 then matchTotalGo a b fuel rest
    else
      k + matchTotalGo a b fuel
        ((if i + k < ahi ∧ j + k < bhi then [(i + k, ahi, j + k, bhi)] else []) ++
          (if alo < i ∧ blo < j then [(alo, i, blo, j)] else []) ++ rest)

/-- Total size of all matching blocks of `SequenceMatcher(None, a, b)`. -/
def sequenceMatcherTotal (a b : List Nat) : Nat :=
  matchTotalGo a b (2 * (a.length + b.length) + 3) [(0, a.length, 0, b.length)]

/-- `SequenceMatcher.ratio()`: `2 * matches / (len(a) + len(b))`, and `1.0`
for two empty sequences (`_calculate_ratio`). -/
def sequenceMatcherRatio (a b : List Nat) : ℚ :=
  if a.length + b.length = 0 then 1
  else 2 * sequenceMatcherTotal a b / ((a.length + b.length : Nat) : ℚ)

/-- `CrossPlatformCorrelator._calculate_username_similarity`:
`SequenceMatcher(None, username1.lower(), username2.lower()).ratio()`. -/
def usernameSimilarity (u1 u2 : List Nat) : ℚ :=
  sequenceMatcherRatio (lowerCp u1) (lowerCp u2)

/-- All nine style features are nonnegative, as produced by
`_extract_writing_style_features` (counts divided by positive denominators). -/
abbrev NonnegStyle (f : StyleFeatures) : Prop :=
  0 ≤ f.avg_sentence_length ∧ 0 ≤ f.avg_word_length ∧
  0 ≤ f.exclamation_ratio ∧ 0 ≤ f.question_ratio ∧ 0 ≤ f.comma_ratio ∧
  0 ≤ f.uppercase_ratio ∧ 0 ≤ f.emoji_ratio ∧ 0 ≤ f.hashtag_ratio ∧
  0 ≤ f.mention_ratio

/-!
### Score fusion (`generate_identity_confidence_score`, `_get_likelihood_label`)

The function receives the dict of per-analysis results.  For each of the five
keys it appends a fixed `(name, weight)` factor when the key is present and its
match list is nonempty; the final score is `sum of weights / number of
factors`.  Each field below is `none` when the key is absent, and `some n`
when the key is present with `n` relevant matches.
-/

structure AnalysesInput where
  cross_platform_matches : Option Nat
  writing_style : Option Nat
  behavioral_correlation : Option Nat
  content_overlap : Option Nat
  timing_correlation : Option Nat

/-- Key present and match count positive. -/
def hasFactor : Option Nat → Bool
  | some n => decide (0 < n)
  | none => false

/-- The `confidence_factors` list as a function of the five presence flags, in
source order. -/
def factorsOfFlags (b1 b2 b3 b4 b5 : Bool) : List (String × ℚ) :=
  (if b1 then [("username_match", 9 / 10)] else []) ++
  (if b2 then [("writing_style", 8 / 10)] else []) ++
  (if b3 then [("behavioral_pattern", 7 / 10)] else []) ++
  (if b4 then [("content_overlap", 85 / 100)] else []) ++
  (if b5 then [("timing_pattern", 6 / 10)] else [])

/-- `total_weight / len(confidence_factors)` with the `else: 0.0` guard
(`if confidence_factors:` is list truthiness, i.e. nonemptiness). -/
def scoreOfFactors (factors : List (String × ℚ)) : ℚ :=
  if factors.isEmpty then 0 else (factors.map Prod.snd).sum / factors.length

def confidenceFactors (a : AnalysesInput) : List (String × ℚ) :=
  factorsOfFlags (hasFactor a.cross_platform_matches) (hasFactor a.writing_style)
    (hasFactor a.behavioral_correlation) (hasFactor a.content_overlap)
    (hasFactor a.timing_correlation)

/-- The `overall_confidence` value of `generate_identity_confidence_score`. -/
def confidenceScore (a : AnalysesInput) : ℚ :=
  scoreOfFactors (confidenceFactors a)

/-- `CrossPlatformAnalyzer._get_likelihood_label` (thresholds on the `[0,1]`
scale). -/
def getLikelihoodLabel (c : ℚ) : String :=
  if c ≥ 8 / 10 then "Very High"
  else if c ≥ 6 / 10 then "High"
  else if c ≥ 4 / 10 then "Medium"
  else if c ≥ 2 / 10 then "Low"
  else "Very Low"

/-!
### Python `sorted`

Modelled as a structural insertion sort (the sorting algorithm itself is
irrelevant to every claim; only the permutation property is used).
-/

def insertSorted {α : Type} (le : α → α → Bool) (a : α) : List α → List α
  | [] => [a]
  | b :: t => if le a b then a :: b :: t else b :: insertSorted le a t

def sortByLe {α : Type} (le : α → α → Bool) (l : List α) : List α :=
  l.foldr (insertSorted le) []

/-!
### Variation generators (claim C7)

`CrossPlatformCorrelator._generate_username_variations` and
`AdvancedDiscovery.generate_username_variations`.  Python `str.replace` with
single-character arguments is a character-wise map; `list(set(...))` is
modelled as `List.dedup` (set iteration order is arbitrary, and only
cardinality and distinctness are at stake); `sorted` is `sortByLe` under the
string order. -/

def replaceChar (s : String) (a b : Char) : String :=
  String.mk (s.toList.map fun c => if c = a then b else c)

def oneTo (n : Nat) : List Nat := (List.range n).map (· + 1)

/-- `CrossPlatformCorrelator._generate_username_variations` before the final
`list(set(...))`. -/
def correlatorVariationsRaw (username : String) : List String :=
  ((oneTo 99).flatMap fun i =>
    [username ++ toString i, username ++ "_" ++ toString i,
      username ++ "." ++ toString i, toString i ++ username]) ++
  (["official", "real", "original", "new", "backup", "2024", "2023"].flatMap
    fun s => [username ++ "_" ++ s, username ++ "." ++ s, username ++ s]) ++
  [replaceChar username '_' '.', replaceChar username '.' '_',
    "_" ++ username, username ++ "_", "." ++ username, username ++ "."]

def correlatorVariations (username : String) : List String :=
  (correlatorVariationsRaw username).dedup

def charLower (c : Char) : Char :=
  if 'A' ≤ c ∧ c ≤ 'Z' then Char.ofNat (c.toNat + 32) else c

def charUpper (c : Char) : Char :=
  if 'a' ≤ c ∧ c ≤ 'z' then Char.ofNat (c.toNat - 32) else c

def pyStrLower (s : String) : String := String.mk (s.toList.map charLower)

def pyStrUpper (s : String) : String := String.mk (s.toList.map charUpper)

def pyCapitalize (s : String) : String :=
  match s.toList with
  | [] => ""
  | c :: cs => String.mk (charUpper c :: cs.map charLower)

/-- The leetspeak table of `generate_username_variations`, flattened in dict
insertion order. -/
def charSubs : List (Char × Char) :=
  [('a', '@'), ('a', '4'), ('e', '3'), ('i', '1'), ('i', '!'),
    ('o', '0'), ('s', '5'), ('s', '$'), ('t', '7')]

/-- `range(1990, current_year + 1)`. -/
def yearRange (currentYear : Nat) : List Nat :=
  (List.range (currentYear + 1 - 1990)).map (1990 + ·)

/-- `AdvancedDiscovery._generate_name_variations` (reached only with truthy
first and last names). -/
def nameVariationList (first last : String) : List String :=
  [first ++ "." ++ last, first ++ "_" ++ last, first ++ last,
    last ++ "." ++ first, last ++ "_" ++ first, last ++ first,
    first.take 1 ++ "." ++ last, first ++ "." ++ last.take 1,
    first.take 1 ++ last, first ++ last.take 1] ++
  ((oneTo 19).flatMap fun i =>
    [first ++ "." ++ last ++ toString i, first ++ "_" ++ last ++ toString i,
      first ++ last ++ toString i,
      first ++ "." ++ last ++ "_" ++ toString i,
      first ++ "_" ++ last ++ "_" ++ toString i])

/-- `if first_name and last_name:`—both present and nonempty. -/
def nameVariations : Option String → Option String → List String
  | some f, some l =>
    if f.isEmpty || l.isEmpty then []
    else nameVariationList (pyStrLower f) (pyStrLower l)
  | _, _ => []

/-- Everything `generate_username_variations` adds to its `variations` set. -/
def advancedVariationsPool (base : String) (first last : Option String)
    (currentYear : Nat) : List String :=
  [base, pyStrLower base, pyStrUpper base, pyCapitalize base] ++
  ((oneTo 99).flatMap fun i =>
    [base ++ toString i, base ++ "_" ++ toString i,
      base ++ "." ++ toString i, base ++ "-" ++ toString i]) ++
  ((yearRange currentYear).flatMap fun y =>
    [base ++ toString y, base ++ "_" ++ toString y,
      toString y ++ base, toString y ++ "_" ++ base]) ++
  (charSubs.flatMap fun p =>
    if (pyStrLower base).toList.contains p.1 then
      [replaceChar (pyStrLower base) p.1 p.2]
    else []) ++
  nameVariations first last

/-- `AdvancedDiscovery.generate_username_variations`:
`sorted(list(variations))[:100]`.  `datetime.now().year` is passed in as
`currentYear`. -/
def advancedVariations (base : String) (first last : Option String)
    (currentYear : Nat) : List String :=
  (sortByLe (fun a b => decide (a ≤ b))
    ((advancedVariationsPool base first last currentYear).dedup)).take 100

/-!
### Blocking and consolidation (`find_cross_platform_accounts`,
`_consolidate_matches`)

Profile records are the `{platform, profile}` dicts consumed by
`find_cross_platform_accounts`; all strings are codepoint lists.  A missing
field and `None` are both `none`.  The source stores `(platform, profile_data)`
pairs in each bucket; since the pair's first component is the entry's own
`platform` field, buckets are lists of entries here.  The biography key uses
`_get_bio_hash` (URL/mention/hashtag stripping plus an md5 digest); that
pipeline is kept abstract as the `bioHash` parameter, which no claim below
depends on.  The md5-derived `user_id` of a consolidated user is modelled by
the sorted key itself (the hash input), as only its determinism matters.
-/

structure ProfileRec where
  username : List Nat
  display_name : Option (List Nat)
  full_name : Option (List Nat)
  biography : Option (List Nat)
  description : Option (List Nat)
deriving DecidableEq

structure ProfileEntry where
  platform : List Nat
  profile : ProfileRec
deriving DecidableEq

structure BlockMatch where
  match_type : String
  confidence : ℚ
  profiles : List ProfileEntry
  identifier : List Nat

structure ConsolidatedUser where
  user_id : List (List Nat)
  platforms : List (List Nat)
  profiles : List ProfileEntry
  match_confidence : ℚ
  match_type : String

/-- Python `a or b or ''` on optional strings: first truthy value, else empty. -/
def truthyOr (a : Option (List Nat)) (k : List Nat) : List Nat :=
  match a with
  | some x => if x.isEmpty then k else x
  | none => k

/-- `(profile.get('display_name') or profile.get('full_name') or '').lower()`. -/
def rawDisplayName (p : ProfileRec) : List Nat :=
  lowerCp (truthyOr p.display_name (truthyOr p.full_name []))

/-- `(profile.get('biography') or profile.get('description') or '').lower()`. -/
def rawBio (p : ProfileRec) : List Nat :=
  lowerCp (truthyOr p.biography (truthyOr p.description []))

/-- The username blocking key: `username_key = _normalize_username(username)`
guarded by `if username_key:` (empty keys excluded). -/
def usernameKey (e : ProfileEntry) : Option (List Nat) :=
  let k := normalizeUsername (lowerCp e.profile.username)
  if k.isEmpty then none else some k

/-- The display-name blocking key: guarded by `if display_name:` on the *raw*
name, then keyed by `_normalize_name(display_name)` — the normalized key is
not checked for emptiness. -/
def nameKey (e : ProfileEntry) : Option (List Nat) :=
  let dn := rawDisplayName e.profile
  if dn.isEmpty then none else some (normalizeName dn)

/-- The biography blocking key: `if bio and len(bio) > 20:` then
`_get_bio_hash(bio)` (kept abstract). -/
def bioKey (bioHash : List Nat → List Nat) (e : ProfileEntry) :
    Option (List Nat) :=
  let b := rawBio e.profile
  if !b.isEmpty && decide (20 < b.length) then some (bioHash b) else none

/-- The buckets of one blocking pass: distinct keys in first-occurrence order,
each with the entries carrying that key, in input order (`defaultdict(list)`
with Python 3.7+ insertion-ordered dicts). -/
def bucketsOf (profiles : List ProfileEntry)
    (keyOf : ProfileEntry → Option (List Nat)) :
    List (List Nat × List ProfileEntry) :=
  ((profiles.filterMap keyOf).dedup).map fun k =>
    (k, profiles.filter fun p => decide (keyOf p = some k))

/-- The match records of one blocking pass: one per bucket holding more than
one profile (`if len(profiles) > 1:`). -/
def matchesFor (mtype : String) (conf : ℚ) (profiles : List ProfileEntry)
    (keyOf : ProfileEntry → Option (List Nat)) : List BlockMatch :=
  (bucketsOf profiles keyOf).filterMap fun kb =>
    if 2 ≤ kb.2.length then some ⟨mtype, conf, kb.2, kb.1⟩ else none

/-- The `matches` list of `find_cross_platform_accounts`: username matches
(confidence 0.9), then display-name matches (0.7), then biography matches
(0.8). -/
def findCrossPlatformMatches (bioHash : List Nat → List Nat)
    (profiles : List ProfileEntry) : List BlockMatch :=
  matchesFor "username" (9 / 10) profiles usernameKey ++
  matchesFor "display_name" (7 / 10) profiles nameKey ++
  matchesFor "biography" (8 / 10) profiles (bioKey bioHash)

/-- Lexicographic order on codepoint strings (Python string `<`). -/
def lexLe : List Nat → List Nat → Bool
  | [], _ => true
  | _ :: _, [] => false
  | a :: as, b :: bs => if a = b then lexLe as bs else decide (a < b)

/-- `f"{p[0]}:{p[1]['profile']['username']}"`. -/
def entryKey (e : ProfileEntry) : List Nat :=
  e.platform ++ 58 :: e.profile.username

/-- `tuple(sorted([f"{platform}:{username}" ...]))`. -/
def profileKey (m : BlockMatch) : List (List Nat) :=
  sortByLe lexLe (m.profiles.map entryKey)

/-- The loop of `_consolidate_matches` with its `processed_profiles` set. -/
def consolidateGo : List BlockMatch → List (List (List Nat)) →
    List ConsolidatedUser
  | [], _ => []
  | m :: ms, processed =>
    let key := profileKey m
    if key ∈ processed then consolidateGo ms processed
    else
      { user_id := key,
        platforms := m.profiles.map ProfileEntry.platform,
        profiles := m.profiles,
        match_confidence := m.confidence,
        match_type := m.match_type } :: consolidateGo ms (key :: processed)

/-- `CrossPlatformAnalyzer._consolidate_matches`. -/
def consolidateMatches (ms : List BlockMatch) : List ConsolidatedUser :=
  consolidateGo ms []

def eA : ProfileEntry := ⟨encode "instagram", ⟨encode "aaa", none, none, none, none⟩⟩

def eB : ProfileEntry := ⟨encode "twitter", ⟨encode "bbb", none, none, none, none⟩⟩

def eC : ProfileEntry := ⟨encode "youtube", ⟨encode "ccc", none, none, none, none⟩⟩

def exM1 : BlockMatch := ⟨"username", 9 / 10, [eA, eB], encode "john"⟩

def exM2 : BlockMatch := ⟨"display_name", 7 / 10, [eB, eC], encode "john q"⟩

def exMatches : List BlockMatch := [exM1, exM2]

def cE : ConsolidatedUser :=
  { user_id := profileKey exM1,
    platforms := exM1.profiles.map ProfileEntry.platform,
    profiles := exM1.profiles,
    match_confidence := exM1.confidence,
    match_type := exM1.match_type }

/-!
### `CrossPlatformCorrelator.correlate_accounts`

`_load_platform_data` performs file I/O: it is the abstract `load` oracle,
returning `.error msg` when it raises, `.ok none` when it returns `None` (or a
falsy payload — `if platform_data:` tests truthiness), and `.ok (some d)`
otherwise.  Only the `profile` key of the loaded JSON dict is read by the
loop; the profile dict itself is carried along unexamined as an association list.  The
`correlation_analysis` field of the returned dict (a pure function of the
presence dict) is not modelled; the claim concerns `platform_presence` and
the per-platform exception handling.
-/

def ProfileJson := List (String × List Nat)

structure PlatformData where
  profile : ProfileJson

structure PresenceEntry where
  found : Bool
  profile : Option ProfileJson
  confidence : Nat

/-- `self.platforms`. -/
def correlatorPlatforms : List String :=
  ["instagram", "twitter", "youtube", "tiktok", "linkedin"]

/-- One iteration of the platform loop: the `try/except` records
`{'found': False, 'confidence': 0}` both when the load raises and when it
returns nothing. -/
def checkPlatform (load : String → Except String (Option PlatformData))
    (p : String) : PresenceEntry :=
  match load p with
  | .ok (some d) => ⟨true, some d.profile, 100⟩
  | .ok none => ⟨false, none, 0⟩
  | .error _ => ⟨false, none, 0⟩

/-- The `correlations` dict keyed by platform, in loop order. -/
def platformPresence (load : String → Except String (Option PlatformData)) :
    List (String × PresenceEntry) :=
  correlatorPlatforms.map fun p => (p, checkPlatform load p)

/-- `sum(1 for p in correlations.values() if p['found'])`. -/
def totalPlatforms (pp : List (String × PresenceEntry)) : Nat :=
  (pp.filter fun e => e.2.found).length

/-- `CrossPlatformCorrelator._calculate_footprint_score` (Python `int()` on a
nonnegative value is the floor). -/
def footprintScore (pp : List (String × PresenceEntry)) : Int :=
  let foundCount := (pp.filter fun e => e.2.found).length
  let presence : ℚ := (foundCount : ℚ) / correlatorPlatforms.length * 60
  let bonus : ℚ :=
    ((pp.filter fun e => e.2.found).map fun e => (e.2.confidence : ℚ)).sum /
      max 1 (foundCount : ℚ) * (4 / 10)
  min 100 ⌊presence + bonus⌋

structure CorrelateResult where
  username : String
  platform_presence : List (String × PresenceEntry)
  total_platforms : Nat
  digital_footprint_score : Int

/-- `CrossPlatformCorrelator.correlate_accounts`. -/
def correlateAccounts (load : String → Except String (Option PlatformData))
    (username : String) : CorrelateResult :=
  let pp := platformPresence load
  ⟨username, pp, totalPlatforms pp, footprintScore pp⟩

example : normalizeUsername (encode "Jane.Doe_42") = encode "janedoe" := by decide

example : normalizeName (encode "  Jane   DOE!! ") = encode "jane doe" := by decide

/-! ### Helper lemmas for the normalization claims -/

theorem pyLower_idem (c : Nat) : pyLower (pyLower c) = pyLower c := by
  unfold pyLower
  split_ifs <;> omega

theorem pyLower_ne_ten {c : Nat} (h : c ≠ 10) : pyLower c ≠ 10 := by
  unfold pyLower
  split_ifs <;> omega

theorem pyLower_space : pyLower 32 = 32 := by decide

theorem map_fix {α : Type} {f : α → α} :
    ∀ {l : List α}, (∀ c ∈ l, f c = c) → l.map f = l
  | [], _ => rfl
  | a :: t, h => by
    simp only [List.map_cons, h a (List.mem_cons_self a t),
      map_fix fun c hc => h c (List.mem_cons_of_mem a hc)]

theorem stripTrailingDigits_of_ten_not_mem {l : List Nat} (h : (10 : Nat) ∉ l) :
    stripTrailingDigits l = dropTrailingDigits l := by
  unfold stripTrailingDigits
  rw [if_neg]
  intro hlast
  exact h (List.mem_of_mem_getLast? (by rw [hlast]; rfl))

theorem dropTrailingDigits_subset {l : List Nat} :
    ∀ {c : Nat}, c ∈ dropTrailingDigits l → c ∈ l := by
  intro c hc
  have hpre := List.rdropWhile_prefix isDigitCp l
  exact hpre.sublist.subset hc

theorem dropTrailingDigits_idem (l : List Nat) :
    dropTrailingDigits (dropTrailingDigits l) = dropTrailingDigits l :=
  List.rdropWhile_idempotent isDigitCp l

/-- Structure of the cleaned string `(lowerCp l).filter (!isSepCp ·)`: every
character is a `pyLower` image and is not a separator. -/
theorem mem_cleanUsername {l : List Nat} {c : Nat}
    (hc : c ∈ (lowerCp l).filter (fun c => !isSepCp c)) :
    pyLower c = c ∧ isSepCp c = false := by
  have h1 := List.mem_filter.mp hc
  obtain ⟨c0, _, rfl⟩ := List.mem_map.mp h1.1
  refine ⟨pyLower_idem c0, ?_⟩
  simpa using h1.2

theorem ten_not_mem_cleanUsername {l : List Nat} (h : (10 : Nat) ∉ l) :
    (10 : Nat) ∉ (lowerCp l).filter (fun c => !isSepCp c) := by
  intro hc
  have h1 := List.mem_filter.mp hc
  obtain ⟨c0, hc0, heq⟩ := List.mem_map.mp h1.1
  exact pyLower_ne_ten (fun hten => h (hten ▸ hc0)) heq

/-- Every word produced by `splitOnP` consists of characters of the input that
fail the predicate. -/
theorem splitOnP_words {α : Type} (p : α → Bool) :
    ∀ (l : List α), ∀ w ∈ l.splitOnP p, ∀ c ∈ w, p c = false ∧ c ∈ l := by
  intro l
  induction l with
  | nil =>
    intro w hw c hc
    rw [List.splitOnP_nil] at hw
    simp only [List.mem_singleton] at hw
    subst hw
    exact absurd hc (List.not_mem_nil c)
  | cons x xs ih =>
    intro w hw c hc
    rw [List.splitOnP_cons] at hw
    by_cases hp : p x
    · rw [if_pos hp] at hw
      rcases List.mem_cons.mp hw with rfl | hw
      · exact absurd hc (List.not_mem_nil c)
      · obtain ⟨h1, h2⟩ := ih w hw c hc
        exact ⟨h1, List.mem_cons_of_mem x h2⟩
    · rw [if_neg hp] at hw
      cases hsp : xs.splitOnP p with
      | nil => exact absurd hsp (List.splitOnP_ne_nil p xs)
      | cons h t =>
        rw [hsp, List.modifyHead_cons] at hw
        rcases List.mem_cons.mp hw with rfl | hw
        · rcases List.mem_cons.mp hc with rfl | hc
          · exact ⟨Bool.eq_false_iff.mpr hp, List.mem_cons_self c xs⟩
          · obtain ⟨h1, h2⟩ := ih _ (hsp ▸ List.mem_cons_self h t) c hc
            exact ⟨h1, List.mem_cons_of_mem x h2⟩
        · obtain ⟨h1, h2⟩ := ih w (hsp ▸ List.mem_cons_of_mem h hw) c hc
          exact ⟨h1, List.mem_cons_of_mem x h2⟩

theorem pySplit_sound {l : List Nat} {w : List Nat} (hw : w ∈ pySplit l) :
    w ≠ [] ∧ ∀ c ∈ w, isSpaceCp c = false ∧ c ∈ l := by
  unfold pySplit at hw
  have h1 := List.mem_filter.mp hw
  refine ⟨by simpa using h1.2, fun c hc => splitOnP_words isSpaceCp l w h1.1 c hc⟩

theorem intercalate_space_cons_cons (w r : List Nat) (rs : List (List Nat)) :
    List.intercalate [32] (w :: r :: rs) =
      w ++ 32 :: List.intercalate [32] (r :: rs) := by
  simp [List.intercalate, List.intersperse]

theorem mem_intercalate_space {ws : List (List Nat)} {c : Nat}
    (hc : c ∈ List.intercalate [32] ws) : c = 32 ∨ ∃ w ∈ ws, c ∈ w := by
  induction ws with
  | nil => simp [List.intercalate] at hc
  | cons w rest ih =>
    cases rest with
    | nil =>
      simp only [List.intercalate, List.intersperse, List.flatten,
        List.append_nil] at hc
      exact Or.inr ⟨w, List.mem_cons_self w [], hc⟩
    | cons r rs =>
      rw [intercalate_space_cons_cons] at hc
      rcases List.mem_append.mp hc with hcw | hctail
      · exact Or.inr ⟨w, List.mem_cons_self _ _, hcw⟩
      · rcases List.mem_cons.mp hctail with rfl | hcrest
        · exact Or.inl rfl
        · rcases ih hcrest with h32 | ⟨w2, hw2, hcw2⟩
          · exact Or.inl h32
          · exact Or.inr ⟨w2, List.mem_cons_of_mem w hw2, hcw2⟩

/-- Splitting is a left inverse of joining with single spaces, for nonempty
space-free words. -/
theorem pySplit_intercalate :
    ∀ (ws : List (List Nat)),
      (∀ w ∈ ws, w ≠ [] ∧ ∀ c ∈ w, isSpaceCp c = false) →
      pySplit (List.intercalate [32] ws) = ws := by
  intro ws
  induction ws with
  | nil => intro _; rfl
  | cons w rest ih =>
    intro h
    obtain ⟨hwne, hwchars⟩ := h w (List.mem_cons_self w rest)
    cases rest with
    | nil =>
      have : List.intercalate [32] [w] = w := by
        simp [List.intercalate, List.intersperse]
      rw [this]
      unfold pySplit
      rw [List.splitOnP_eq_single _ _ (fun x hx => by simp [hwchars x hx])]
      simp [hwne]
    | cons r rs =>
      rw [intercalate_space_cons_cons]
      unfold pySplit
      rw [List.splitOnP_first _ _ (fun x hx => by simp [hwchars x hx]) 32 rfl]
      rw [List.filter_cons]
      simp only [hwne, Bool.not_eq_eq_eq_not, Bool.not_true, List.isEmpty_eq_false,
        ne_eq, not_false_eq_true, if_pos]
      have := ih (fun w2 hw2 => h w2 (List.mem_cons_of_mem w hw2))
      unfold pySplit at this
      rw [this]

/-- Claim C5 (amended): display-name normalization is idempotent on every
string; username normalization is idempotent on every string that contains no
newline (codepoint 10).  On strings with an interior newline the Python regex
anchor `$` of `\d+$` makes a second application strip further digits. -/
theorem C5_normalization_idempotent :
    (∀ l : List Nat, (10 : Nat) ∉ l →
        normalizeUsername (normalizeUsername l) = normalizeUsername l) ∧
    (∀ l : List Nat, normalizeName (normalizeName l) = normalizeName l) := by
  constructor
  · intro l hl
    have hm10 := ten_not_mem_cleanUsername hl
    set m := (lowerCp l).filter (fun c => !isSepCp c) with hm
    have hinner : normalizeUsername l = dropTrailingDigits m := by
      rw [normalizeUsername, ← hm, stripTrailingDigits_of_ten_not_mem hm10]
    have hsubset : ∀ {c : Nat}, c ∈ dropTrailingDigits m → c ∈ m :=
      fun hc => dropTrailingDigits_subset hc
    have hmap : lowerCp (dropTrailingDigits m) = dropTrailingDigits m :=
      map_fix fun c hc => (mem_cleanUsername (hsubset hc)).1
    have hfil : (dropTrailingDigits m).filter (fun c => !isSepCp c) =
        dropTrailingDigits m :=
      List.filter_eq_self.mpr fun c hc => by
        simp [(mem_cleanUsername (hsubset hc)).2]
    have h10r : (10 : Nat) ∉ dropTrailingDigits m := fun hc => hm10 (hsubset hc)
    rw [hinner, normalizeUsername, hmap, hfil,
      stripTrailingDigits_of_ten_not_mem h10r, dropTrailingDigits_idem]
  · intro l
    set m := (lowerCp l).filter (fun c => isWordCp c || isSpaceCp c) with hm
    have hchars : ∀ c, c ∈ List.intercalate [32] (pySplit m) →
        pyLower c = c ∧ (isWordCp c || isSpaceCp c) = true := by
      intro c hc
      rcases mem_intercalate_space hc with rfl | ⟨w, hw, hcw⟩
      · exact ⟨pyLower_space, by decide⟩
      · have hcm := ((pySplit_sound hw).2 c hcw).2
        have h1 := List.mem_filter.mp hcm
        obtain ⟨c0, _, rfl⟩ := List.mem_map.mp h1.1
        exact ⟨pyLower_idem c0, h1.2⟩
    conv_lhs => rw [normalizeName]
    rw [show lowerCp (normalizeName l) = normalizeName l from
      map_fix fun c hc => (hchars c hc).1]
    rw [show (normalizeName l).filter (fun c => isWordCp c || isSpaceCp c) =
        normalizeName l from
      List.filter_eq_self.mpr fun c hc => (hchars c hc).2]
    rw [normalizeName]
    rw [pySplit_intercalate (pySplit m) fun w hw =>
      ⟨(pySplit_sound hw).1, fun c hc => ((pySplit_sound hw).2 c hc).1⟩]

/-- Witness for C5: both idempotence statements evaluated at concrete inputs. -/
theorem C5_witness :
    ((10 : Nat) ∉ encode "Jane.Doe_42") ∧
    normalizeUsername (normalizeUsername (encode "Jane.Doe_42")) =
      normalizeUsername (encode "Jane.Doe_42") ∧
    normalizeName (normalizeName (encode "  Jane   DOE!! ")) =
      normalizeName (encode "  Jane   DOE!! ") :=
  ⟨by decide, C5_normalization_idempotent.1 (encode "Jane.Doe_42") (by decide),
    C5_normalization_idempotent.2 (encode "  Jane   DOE!! ")⟩

/-- Counterexample for C5 as stated: username normalization is not idempotent
on the string `"1\n2"` — one application yields `"1\n"`, a second application
yields `"\n"`, because the Python regex `\d+$` also matches a digit run just
before a final newline. -/
theorem C5_counterexample :
    normalizeUsername (normalizeUsername (encode "1\n2")) ≠
      normalizeUsername (encode "1\n2") := by decide

/-! ### Claim C1 -/

example : sequenceMatcherTotal (encode "abcd") (encode "bcd") = 3 := by decide

example : sequenceMatcherTotal (encode "bcd") (encode "abcd") = 3 := by decide

example : sequenceMatcherTotal (encode "abxcd") (encode "abycd") = 4 := by decide

example : sequenceMatcherTotal (encode "aaa") (encode "aa") = 2 := by decide

example : sequenceMatcherTotal (encode "abab") (encode "baba") = 3 := by decide

example : sequenceMatcherTotal (encode "baba") (encode "abab") = 3 := by decide

example : sequenceMatcherRatio [] [] = 1 := rfl

theorem simTerm_comm (a b : ℚ) : simTerm a b = simTerm b a := by
  unfold simTerm
  rw [abs_sub_comm, max_left_comm]

/-- Claim C1 (amended): the behavioral-correlation, writing-style-similarity
and temporal co-occurrence signals are symmetric under swapping the two
profiles — the temporal one degenerately, returning 0 whenever either side is
empty and raising the same `NameError` in both orders otherwise — but the
username-similarity signal (`_calculate_username_similarity`, difflib
`SequenceMatcher.ratio`) is not symmetric (see the counterexample), so neither
universal extractor symmetry nor pairwise confidence symmetry holds. -/
theorem C1_symmetric_signals :
    (∀ b1 b2 : Option BehaviorFeatures,
        behavioralCorrelation b1 b2 = behavioralCorrelation b2 b1) ∧
    (∀ f1 f2 : Option StyleFeatures,
        styleSimilarity f1 f2 = styleSimilarity f2 f1) ∧
    (∀ t1 t2 : List ℚ, timingCorrelation t1 t2 = timingCorrelation t2 t1) := by
  refine ⟨?_, ?_, ?_⟩
  · intro b1 b2
    cases b1 with
    | none => cases b2 <;> rfl
    | some x =>
      cases b2 with
      | none => rfl
      | some y =>
        simp only [behavioralCorrelation]
        rw [abs_sub_comm x.most_active_hour, abs_sub_comm x.most_active_day,
          simTerm_comm]
  · intro f1 f2
    cases f1 with
    | none => cases f2 <;> rfl
    | some x =>
      cases f2 with
      | none => rfl
      | some y =>
        simp only [styleSimilarity]
        rw [simTerm_comm x.avg_sentence_length, simTerm_comm x.avg_word_length,
          simTerm_comm x.exclamation_ratio, simTerm_comm x.question_ratio,
          simTerm_comm x.comma_ratio, simTerm_comm x.uppercase_ratio,
          simTerm_comm x.emoji_ratio, simTerm_comm x.hashtag_ratio,
          simTerm_comm x.mention_ratio]
  · intro t1 t2
    unfold timingCorrelation
    rw [Bool.or_comm]

/-- Counterexample for C1 as stated: the username-similarity extractor changes
value when its two argument profiles are swapped — `SequenceMatcher` matches 3
characters of `"aba"` against `"babba"` (ratio 3/4) but only 2 of `"babba"`
against `"aba"` (ratio 1/2), because the recursive matching-block
decomposition depends on the argument order. -/
theorem C1_counterexample :
    usernameSimilarity (encode "aba") (encode "babba") ≠
      usernameSimilarity (encode "babba") (encode "aba") := by
  have h1 : sequenceMatcherTotal (lowerCp (encode "aba"))
      (lowerCp (encode "babba")) = 3 := by decide
  have h2 : sequenceMatcherTotal (lowerCp (encode "babba"))
      (lowerCp (encode "aba")) = 2 := by decide
  have hl1 : (lowerCp (encode "aba")).length = 3 := by decide
  have hl2 : (lowerCp (encode "babba")).length = 5 := by decide
  unfold usernameSimilarity sequenceMatcherRatio
  rw [h1, h2, hl1, hl2]
  norm_num

/-! ### Claim C2 -/

theorem simTerm_bounds {a b : ℚ} (ha : 0 ≤ a) (hb : 0 ≤ b) :
    0 ≤ simTerm a b ∧ simTerm a b ≤ 1 := by
  unfold simTerm
  have hM1 : (1 : ℚ) ≤ max a (max b 1) := le_max_of_le_right (le_max_right b 1)
  have hM0 : (0 : ℚ) < max a (max b 1) := lt_of_lt_of_le one_pos hM1
  have habs : |a - b| ≤ max a (max b 1) := by
    rw [abs_sub_le_iff]
    constructor
    · exact le_trans (sub_le_self a hb) (le_max_left _ _)
    · exact le_trans (sub_le_self b ha)
        (le_max_of_le_right (le_max_left b 1))
  constructor
  · have h1 : |a - b| / max a (max b 1) ≤ 1 := (div_le_one hM0).mpr habs
    linarith
  · have h0 : 0 ≤ |a - b| / max a (max b 1) :=
      div_nonneg (abs_nonneg _) (le_of_lt hM0)
    linarith

/-- Claim C2 (amended): the style-similarity score lies in `[0,1]` for
nonnegative feature vectors, and the temporal extractor never returns a score
outside `[0,1]` — the only score it ever returns is 0, for an empty side; with
two nonempty timestamp lists it raises `NameError` instead of returning (see
C9).  The behavioral-correlation score, however, can be negative — its hour
sub-score `1 - diff/12` is not floored at 0, unlike the day sub-score (see the
counterexample) — so the claim's universal `[0,1]` bound fails. -/
theorem C2_score_bounds :
    (∀ f1 f2 : StyleFeatures, NonnegStyle f1 → NonnegStyle f2 →
        0 ≤ styleSimilarity (some f1) (some f2) ∧
          styleSimilarity (some f1) (some f2) ≤ 1) ∧
    (∀ (t1 t2 : List ℚ) (q : ℚ), timingCorrelation t1 t2 = .ok q → q = 0) := by
  constructor
  · intro f1 f2 h1 h2
    obtain ⟨a1, b1, c1, d1, e1, g1, i1, j1, k1⟩ := h1
    obtain ⟨a2, b2, c2, d2, e2, g2, i2, j2, k2⟩ := h2
    obtain ⟨pa, qa⟩ := simTerm_bounds a1 a2
    obtain ⟨pb, qb⟩ := simTerm_bounds b1 b2
    obtain ⟨pc, qc⟩ := simTerm_bounds c1 c2
    obtain ⟨pd, qd⟩ := simTerm_bounds d1 d2
    obtain ⟨pe, qe⟩ := simTerm_bounds e1 e2
    obtain ⟨pg, qg⟩ := simTerm_bounds g1 g2
    obtain ⟨pi, qi⟩ := simTerm_bounds i1 i2
    obtain ⟨pj, qj⟩ := simTerm_bounds j1 j2
    obtain ⟨pk, qk⟩ := simTerm_bounds k1 k2
    simp only [styleSimilarity]
    constructor
    · apply div_nonneg _ (by norm_num : (0 : ℚ) ≤ 9)
      linarith
    · rw [div_le_one (by norm_num : (0 : ℚ) < 9)]
      linarith
  · intro t1 t2 q h
    unfold timingCorrelation at h
    split at h
    · exact (Except.ok.inj h).symm
    · simp at h

/-- Witness for C2: both statements evaluated at concrete inputs (the timing
hypothesis is exercised by the empty-side call, the only one that returns). -/
theorem C2_witness :
    (0 ≤ styleSimilarity (some ⟨1, 1, 0, 0, 0, 0, 0, 0, 0⟩)
        (some ⟨2, 1, 0, 0, 0, 0, 0, 0, 0⟩) ∧
      styleSimilarity (some ⟨1, 1, 0, 0, 0, 0, 0, 0, 0⟩)
        (some ⟨2, 1, 0, 0, 0, 0, 0, 0, 0⟩) ≤ 1) ∧
    (timingCorrelation [] [0] = Except.ok 0 ∧ (0 : ℚ) = 0) :=
  ⟨C2_score_bounds.1 ⟨1, 1, 0, 0, 0, 0, 0, 0, 0⟩ ⟨2, 1, 0, 0, 0, 0, 0, 0, 0⟩
      (by norm_num [NonnegStyle]) (by norm_num [NonnegStyle]),
    rfl, C2_score_bounds.2 [] [0] 0 rfl⟩

/-- Counterexample for C2 as stated: the behavioral-correlation score is
negative when the two most-active hours are 0 and 23 — the hour sub-score
`1 - 23/12` is not floored at 0, unlike the day sub-score. -/
theorem C2_counterexample :
    behavioralCorrelation (some ⟨0, 0, 0⟩) (some ⟨23, 3, 100⟩) < 0 := by
  norm_num [behavioralCorrelation, simTerm]

/-! ### Claim C9 -/

/-- Claim C9 at its failing input (code bug): with one parseable timestamp on
each side, `_calculate_timing_correlation` raises `NameError` — `timedelta` is
used at line 501 but never imported by the module — so the claimed
pair-count score is never computed; only the empty-side guard returns (0).
The timestamp-parsing loop of `analyze_timing_correlation` does skip an
unparsable post without aborting, as the claim states. -/
theorem C9_timing_namerror_bug :
    timingCorrelation [0] [0] = .error "NameError: timedelta is not defined" ∧
    timingCorrelation [] [0] = .ok 0 ∧
    (∀ l1 l2 : List (Option ℚ),
        extractPostTimes (l1 ++ none :: l2) = extractPostTimes (l1 ++ l2)) := by
  refine ⟨rfl, rfl, ?_⟩
  intro l1 l2
  simp [extractPostTimes]

/-! ### Claim C3 -/

theorem scoreOfFactors_flags_bounds (b1 b2 b3 b4 b5 : Bool) :
    scoreOfFactors (factorsOfFlags b1 b2 b3 b4 b5) = 0 ∨
      (3 / 5 ≤ scoreOfFactors (factorsOfFlags b1 b2 b3 b4 b5) ∧
        scoreOfFactors (factorsOfFlags b1 b2 b3 b4 b5) ≤ 9 / 10) := by
  cases b1 <;> cases b2 <;> cases b3 <;> cases b4 <;> cases b5 <;>
    first
      | (left; norm_num [factorsOfFlags, scoreOfFactors]; done)
      | (right; constructor <;> norm_num [factorsOfFlags, scoreOfFactors])

/-- Claim C3 (amended): the fused confidence is the unweighted mean of the
fixed per-signal weights (0.9 username, 0.8 style, 0.7 behavioral, 0.85
content overlap, 0.6 timing) over the contributing signal types, so it is `0`
with no contributing signal and otherwise stays within `[0.6, 0.9]` — it is
never scaled to `[0,100]` — and the likelihood bands are the thresholds 0.8,
0.6, 0.4, 0.2 on the `[0,1]` scale with labels `Very High` … `Very Low`. -/
theorem C3_fusion_and_bands :
    (∀ a : AnalysesInput,
        confidenceScore a = 0 ∨
          (3 / 5 ≤ confidenceScore a ∧ confidenceScore a ≤ 9 / 10)) ∧
    (∀ c : ℚ,
        (getLikelihoodLabel c = "Very High" ↔ 8 / 10 ≤ c) ∧
        (getLikelihoodLabel c = "High" ↔ 6 / 10 ≤ c ∧ c < 8 / 10) ∧
        (getLikelihoodLabel c = "Medium" ↔ 4 / 10 ≤ c ∧ c < 6 / 10) ∧
        (getLikelihoodLabel c = "Low" ↔ 2 / 10 ≤ c ∧ c < 4 / 10) ∧
        (getLikelihoodLabel c = "Very Low" ↔ c < 2 / 10)) := by
  constructor
  · intro a
    exact scoreOfFactors_flags_bounds _ _ _ _ _
  · intro c
    unfold getLikelihoodLabel
    split_ifs with h1 h2 h3 h4 <;>
      refine ⟨?_, ?_, ?_, ?_, ?_⟩ <;>
      constructor <;>
      intro h <;>
      first
        | rfl
        | (exact absurd h (by decide))
        | exact ⟨by linarith, by linarith⟩
        | linarith

/-- Counterexample for C3 as stated: with one username-level match the fused
confidence is 0.9 — on the `[0,1]` scale, not scaled to `[0,100]` — and its
band is `Very High` although 0.9 is far below the claimed threshold of 80. -/
theorem C3_counterexample :
    confidenceScore ⟨some 1, none, none, none, none⟩ = 9 / 10 ∧
    getLikelihoodLabel (9 / 10) = "Very High" ∧ ¬(80 ≤ (9 / 10 : ℚ)) := by
  refine ⟨?_, ?_, by norm_num⟩
  · norm_num [confidenceScore, confidenceFactors, factorsOfFlags,
      scoreOfFactors, hasFactor]
  · norm_num [getLikelihoodLabel]

theorem insertSorted_perm {α : Type} (le : α → α → Bool) (a : α) :
    ∀ l : List α, List.Perm (insertSorted le a l) (a :: l) := by
  intro l
  induction l with
  | nil => rfl
  | cons b t ih =>
    unfold insertSorted
    split
    · rfl
    · exact (List.Perm.cons b ih).trans (List.Perm.swap a b t)

theorem sortByLe_perm {α : Type} (le : α → α → Bool) :
    ∀ l : List α, List.Perm (sortByLe le l) l := by
  intro l
  induction l with
  | nil => rfl
  | cons a t ih =>
    exact (insertSorted_perm le a (sortByLe le t)).trans (List.Perm.cons a ih)

/-! ### Claim C4 -/

theorem scoreOfFactors_username_mono (b2 b3 b4 b5 : Bool) :
    scoreOfFactors (factorsOfFlags false b2 b3 b4 b5) ≤
      scoreOfFactors (factorsOfFlags true b2 b3 b4 b5) := by
  cases b2 <;> cases b3 <;> cases b4 <;> cases b5 <;>
    norm_num [factorsOfFlags, scoreOfFactors]

/-- Claim C4 (amended): in the implemented fusion a contributing signal adds
its fixed weight, not its score, and adding a signal whose weight is below the
current mean lowers the fused confidence (see the counterexample).  What does
hold is that adding the maximal-weight factor — a username match, weight
0.9 — never decreases the fused confidence. -/
theorem C4_username_factor_monotone (a : AnalysesInput)
    (h : hasFactor a.cross_platform_matches = false) :
    confidenceScore a ≤
      confidenceScore { a with cross_platform_matches := some 1 } := by
  show scoreOfFactors _ ≤ scoreOfFactors _
  simp only [confidenceFactors]
  rw [h]
  exact scoreOfFactors_username_mono _ _ _ _

/-- Witness for C4: adding a username factor to a style-only input raises the
confidence from 0.8 to 0.85. -/
theorem C4_witness :
    hasFactor (AnalysesInput.mk none (some 1) none none none).cross_platform_matches
        = false ∧
    confidenceScore ⟨none, some 1, none, none, none⟩ ≤
      confidenceScore ⟨some 1, some 1, none, none, none⟩ :=
  ⟨rfl, C4_username_factor_monotone ⟨none, some 1, none, none, none⟩ rfl⟩

/-- Counterexample for C4 as stated: starting from a username-only signal set
(confidence 0.9), adding a computed timing signal — even a perfectly
synchronized one, score 1.0 — drops the fused confidence to 0.75, because
fusion averages the fixed factor weights and the timing weight 0.6 is below
the running mean. -/
theorem C4_counterexample :
    confidenceScore ⟨some 1, none, none, none, none⟩ = 9 / 10 ∧
    confidenceScore ⟨some 1, none, none, none, some 1⟩ = 3 / 4 ∧
    confidenceScore ⟨some 1, none, none, none, some 1⟩ <
      confidenceScore ⟨some 1, none, none, none, none⟩ := by
  refine ⟨?_, ?_, ?_⟩ <;>
    norm_num [confidenceScore, confidenceFactors, factorsOfFlags,
      scoreOfFactors, hasFactor]

/-- Claim C7 (amended): both generators return finite, duplicate-free
candidate lists; `generate_username_variations` (advanced_discovery) caps its
output at 100, but `_generate_username_variations` (correlator) has no cap and
returns more than 100 distinct candidates already for the one-letter seed
`"a"` (see the counterexample). -/
theorem C7_variations_dedup_and_cap :
    (∀ (base : String) (first last : Option String) (currentYear : Nat),
        (advancedVariations base first last currentYear).Nodup ∧
          (advancedVariations base first last currentYear).length ≤ 100) ∧
    (∀ u : String, (correlatorVariations u).Nodup) := by
  constructor
  · intro base first last currentYear
    constructor
    · apply List.Nodup.sublist (List.take_sublist _ _)
      exact ((sortByLe_perm _ _).symm).nodup
        (List.nodup_dedup (advancedVariationsPool base first last currentYear))
    · exact List.length_take_le _ _
  · intro u
    exact List.nodup_dedup (correlatorVariationsRaw u)

set_option maxRecDepth 10000 in
/-- Counterexample for C7 as stated: the correlator variation generator is not
capped at 100 — already for the seed `"a"` the first 101 raw candidates are
pairwise distinct, so the deduplicated output has more than 100 entries. -/
theorem C7_counterexample : ¬((correlatorVariations "a").length ≤ 100) := by
  have htake : ((correlatorVariationsRaw "a").take 101).Nodup := by decide
  have hsub : (correlatorVariationsRaw "a").take 101 ⊆ correlatorVariations "a" :=
    fun x hx => List.mem_dedup.mpr (List.take_subset _ _ hx)
  have hlen := (htake.subperm hsub).length_le
  have h101 : ((correlatorVariationsRaw "a").take 101).length = 101 := by decide
  omega

/-! ### Claim C8 -/

theorem consolidateGo_sound :
    ∀ (ms : List BlockMatch) (processed : List (List (List Nat)))
      (c : ConsolidatedUser), c ∈ consolidateGo ms processed →
      ∃ m ∈ ms, c.profiles = m.profiles ∧ c.match_type = m.match_type ∧
        c.match_confidence = m.confidence := by
  intro ms
  induction ms with
  | nil => intro processed c hc; exact absurd hc (List.not_mem_nil c)
  | cons m rest ih =>
    intro processed c hc
    unfold consolidateGo at hc
    by_cases hk : profileKey m ∈ processed
    · rw [if_pos hk] at hc
      obtain ⟨m2, hm2, hp⟩ := ih processed c hc
      exact ⟨m2, List.mem_cons_of_mem m hm2, hp⟩
    · rw [if_neg hk] at hc
      rcases List.mem_cons.mp hc with rfl | hc
      · exact ⟨m, List.mem_cons_self m rest, rfl, rfl, rfl⟩
      · obtain ⟨m2, hm2, hp⟩ := ih _ c hc
        exact ⟨m2, List.mem_cons_of_mem m hm2, hp⟩

/-- Claim C8 (amended): consolidation performs no transitive merging — every
emitted cluster is exactly the profile set of one input match group
(deduplicated by sorted member key), so records related only through two
distinct overlapping match groups never share a cluster (see the
counterexample). -/
theorem C8_consolidation_sound (ms : List BlockMatch) (c : ConsolidatedUser)
    (hc : c ∈ consolidateMatches ms) :
    ∃ m ∈ ms, c.profiles = m.profiles ∧ c.match_type = m.match_type ∧
      c.match_confidence = m.confidence :=
  consolidateGo_sound ms [] c hc

/-- Witness for C8: the amended statement applied to the first emitted
cluster of a concrete two-match input. -/
theorem C8_witness :
    cE ∈ consolidateMatches exMatches ∧
    ∃ m ∈ exMatches, cE.profiles = m.profiles ∧ cE.match_type = m.match_type ∧
      cE.match_confidence = m.confidence :=
  ⟨List.mem_cons_self cE _,
    C8_consolidation_sound exMatches cE (List.mem_cons_self cE _)⟩

/-- Counterexample for C8 as stated: the verdicts (A,B) at 0.9 and (B,C) at
0.7 both clear the default merge floor 0.4, yet consolidation emits the two
match groups as separate clusters and no emitted cluster contains both A
and C. -/
theorem C8_counterexample :
    (4 / 10 : ℚ) ≤ 9 / 10 ∧ (4 / 10 : ℚ) ≤ 7 / 10 ∧
    (consolidateMatches exMatches).map ConsolidatedUser.profiles =
      [[eA, eB], [eB, eC]] ∧
    ∀ pr ∈ (consolidateMatches exMatches).map ConsolidatedUser.profiles,
      ¬(eA ∈ pr ∧ eC ∈ pr) := by
  refine ⟨by norm_num, by norm_num, rfl, ?_⟩
  rw [show (consolidateMatches exMatches).map ConsolidatedUser.profiles =
    [[eA, eB], [eB, eC]] from rfl]
  decide

/-! ### Claim C6 -/

/-- Claim C6 evaluated at the failing input (code bug): two profiles whose raw
display names `"!"` and `"?"` are nonempty but normalize to the empty string
are blocked together under the *empty* display-name key and emitted as a
display-name match, because `find_cross_platform_accounts` checks the raw name
for truthiness instead of the normalized key.  (The username pass is guarded
correctly; the usernames `"aaa"` and `"bbb"` share no key.) -/
theorem C6_empty_name_key_bug :
    normalizeName (encode "!") = [] ∧ normalizeName (encode "?") = [] ∧
    (findCrossPlatformMatches id
        [⟨encode "instagram", ⟨encode "aaa", some (encode "!"), none, none, none⟩⟩,
          ⟨encode "twitter", ⟨encode "bbb", some (encode "?"), none, none, none⟩⟩]).map
        (fun m => (m.match_type, m.identifier, m.profiles.length)) =
      [("display_name", [], 2)] := by
  refine ⟨by decide, by decide, by decide⟩

/-! ### Claim C10 -/

/-- Claim C10: for every load oracle and username, `platform_presence` has
exactly the five platforms as keys, in order, and a platform whose load raises
is recorded as `found = False` with confidence 0 — the exception is consumed
by the per-platform `try/except` and never reaches the caller (the embedding
is a total function of the oracle). -/
theorem C10_platform_presence_robust :
    (∀ (load : String → Except String (Option PlatformData)) (u : String),
        (correlateAccounts load u).platform_presence.map Prod.fst =
          ["instagram", "twitter", "youtube", "tiktok", "linkedin"]) ∧
    (∀ (load : String → Except String (Option PlatformData)) (u p : String),
        p ∈ correlatorPlatforms → ∀ err : String, load p = .error err →
          (correlateAccounts load u).platform_presence.lookup p =
            some ⟨false, none, 0⟩) := by
  constructor
  · intro load u
    simp [correlateAccounts, platformPresence, correlatorPlatforms]
  · intro load u p hp err herr
    simp only [correlatorPlatforms, List.mem_cons, List.not_mem_nil,
      or_false] at hp
    rcases hp with rfl | rfl | rfl | rfl | rfl <;>
      simp [correlateAccounts, platformPresence, correlatorPlatforms,
        List.lookup, checkPlatform, herr]

/-- Witness for C10: a concrete oracle that raises on `"twitter"` and finds
nothing elsewhere. -/
theorem C10_witness :
    ((correlateAccounts
        (fun q => if q = "twitter" then .error "io failure" else .ok none)
        "alice").platform_presence.map Prod.fst =
      ["instagram", "twitter", "youtube", "tiktok", "linkedin"]) ∧
    (correlateAccounts
        (fun q => if q = "twitter" then .error "io failure" else .ok none)
        "alice").platform_presence.lookup "twitter" = some ⟨false, none, 0⟩ :=
  ⟨C10_platform_presence_robust.1 _ "alice",
    C10_platform_presence_robust.2 _ "alice" "twitter" (by decide)
      "io failure" (by simp)⟩
